import Mathlib

/-!
  # Verification of the unreal-mcp transport core

  A shallow embedding of the transport core of `Python/unreal_mcp_server.py`:
  the `UnrealConnection` class with its `connect`, `receive_full_response`
  and `send_command` methods (source lines 125-300).

  Modelling choices, each anchored to the source:

  * Parsed JSON documents are `JValue` (Python object graph produced by
    `json.loads`). Python `None` and JSON `null` are both `JValue.null`,
    exactly as CPython represents both by `None`.
  * The Python runtime library calls `bytes.decode` and `json.loads` are
    collaborator functions collected in an `Env` record: `decodeUtf8`
    returns `none` exactly when `bytes.decode` raises `UnicodeDecodeError`,
    and `jsonLoads` classifies the outcome of `json.loads` as success,
    `json.JSONDecodeError`, or some other exception, matching the three
    behaviours the source distinguishes (lines 198-208).
  * The socket is modelled by the sequence of outcomes its `recv` calls
    produce: a data chunk (an empty chunk means the peer closed, as in the
    source line 187), or a raised socket error. `sock.settimeout(5)`
    (line 183) means a `recv` with no further incoming data raises
    `socket.timeout`; the model renders this as exhaustion of the event
    list, so every run is finite and total.
  * Socket objects are identified by a caller-supplied fresh number, so
    that reuse of a handle across calls is observable.
-/

namespace UnrealMCP

/-- A parsed JSON document, as the Python object graph that `json.loads`
produces. `null` doubles as Python `None` (CPython uses the same object
for JSON null and for an absent value). -/
inductive JValue : Type
  | null : JValue
  | bool (b : Bool) : JValue
  | num (n : Int) : JValue
  | str (s : String) : JValue
  | arr (xs : List JValue) : JValue
  | obj (fields : List (String × JValue)) : JValue

/-- The outcome of one `json.loads` call, as the source distinguishes them
in the receive loop (lines 198-208): success, `json.JSONDecodeError`, or
any other exception. Both failure forms carry the `str(e)` message text. -/
inductive LoadsResult : Type
  | ok (v : JValue) : LoadsResult
  | jsonDecodeError (msg : String) : LoadsResult
  | otherError (msg : String) : LoadsResult

/-- The Python runtime collaborators used by the transport core:
`bytes.decode` with encoding utf-8 (with its exception message), and
`json.loads`. -/
structure Env : Type where
  decodeUtf8 : List Nat → Option String
  decodeErrMsg : List Nat → String
  jsonLoads : String → LoadsResult

/-- One outcome of a `sock.recv` call: a chunk of bytes (empty meaning the
peer closed its write side, source line 187), or a raised socket error.
A read past the end of the event list models `socket.timeout` under the
5-second timeout set at source line 183. -/
inductive RecvEvent : Type
  | data (bytes : List Nat) : RecvEvent
  | sockError (msg : String) : RecvEvent
deriving DecidableEq

/-- The observable result of `receive_full_response`: a Python return
value (`ret none` is Python `None`, `ret (some buf)` is a bytes object),
or a propagated exception carrying its `str(e)` text. -/
inductive RecvOutcome : Type
  | ret (v : Option (List Nat)) : RecvOutcome
  | exc (msg : String) : RecvOutcome
deriving DecidableEq

/-- The receive loop of `receive_full_response` (source lines 184-223),
with `chunks` the list of chunks accumulated so far.

Source correspondence, case by case:
* empty chunk, nothing accumulated: `raise Exception("Connection closed
  before receiving data")` (line 189), re-raised by the outer handler
  (line 223) — an exception outcome.
* empty chunk, something accumulated: `break` (line 190) leaves the
  `while`, and the function body ends with no further statement, so the
  call returns Python `None` — `ret none`.
* nonempty chunk: append, join, `data.decode("utf-8")` (line 195). A
  decode failure is raised OUTSIDE the inner `try`, reaches the outer
  `except Exception` (line 221) and is re-raised — an exception outcome.
  Otherwise `json.loads`: success returns the accumulated bytes
  (line 201); `JSONDecodeError` or any other exception continue the loop
  (lines 202-208).
* exhausted events (`socket.timeout`, lines 209-220): with accumulated
  chunks, one final decode-and-parse attempt under a bare `except: pass`;
  on success return the bytes, otherwise (and with nothing accumulated)
  `raise Exception("Timeout receiving Unreal response")`.
* a socket error raised by `recv` reaches the outer handler and is
  re-raised (lines 221-223). -/
def recvLoop (env : Env) (chunks : List (List Nat)) : List RecvEvent → RecvOutcome
  | [] =>
    if chunks.isEmpty then RecvOutcome.exc "Timeout receiving Unreal response"
    else
      match env.decodeUtf8 chunks.flatten with
      | some s =>
        match env.jsonLoads s with
        | LoadsResult.ok _ => RecvOutcome.ret (some chunks.flatten)
        | LoadsResult.jsonDecodeError _ => RecvOutcome.exc "Timeout receiving Unreal response"
        | LoadsResult.otherError _ => RecvOutcome.exc "Timeout receiving Unreal response"
      | none => RecvOutcome.exc "Timeout receiving Unreal response"
  | RecvEvent.data b :: rest =>
    if b.isEmpty then
      if chunks.isEmpty then RecvOutcome.exc "Connection closed before receiving data"
      else RecvOutcome.ret none
    else
      let acc := chunks ++ [b]
      match env.decodeUtf8 acc.flatten with
      | none => RecvOutcome.exc (env.decodeErrMsg acc.flatten)
      | some s =>
        match env.jsonLoads s with
        | LoadsResult.ok _ => RecvOutcome.ret (some acc.flatten)
        | LoadsResult.jsonDecodeError _ => recvLoop env acc rest
        | LoadsResult.otherError _ => recvLoop env acc rest
  | RecvEvent.sockError m :: _ => RecvOutcome.exc m

/-- `UnrealConnection.receive_full_response` (source lines 180-223): the
receive loop started with an empty accumulation. -/
def receive_full_response (env : Env) (events : List RecvEvent) : RecvOutcome :=
  recvLoop env [] events

/-- Decidable form of `the accumulated bytes decode as UTF-8 and parse as
one complete JSON document` for a given runtime environment. -/
def parsesAsJson (env : Env) (bs : List Nat) : Bool :=
  match env.decodeUtf8 bs with
  | some s =>
    match env.jsonLoads s with
    | LoadsResult.ok _ => true
    | LoadsResult.jsonDecodeError _ => false
    | LoadsResult.otherError _ => false
  | none => false

/-- Python truthiness of a JSON-compatible value, as used by the `or`
between the two `response.get` calls at source lines 262 and 269 and by
`params or \x7b\x7d` at line 245. -/
def truthy : JValue → Bool
  | JValue.null => false
  | JValue.bool b => b
  | JValue.num n => n != 0
  | JValue.str s => !(s == "")
  | JValue.arr xs => !xs.isEmpty
  | JValue.obj fs => !fs.isEmpty

/-- The Python type name of a value, as it appears in CPython exception
messages. Numbers are modelled as `int`. -/
def pyTypeName : JValue → String
  | JValue.null => "NoneType"
  | JValue.bool _ => "bool"
  | JValue.num _ => "int"
  | JValue.str _ => "str"
  | JValue.arr _ => "list"
  | JValue.obj _ => "dict"

/-- The `AttributeError` message CPython raises when `.get` is called on a
value that is not a dict (source lines 261 and 267 call `response.get`). -/
def attrErrMsgGet (v : JValue) : String :=
  "'" ++ pyTypeName v ++ "' object has no attribute 'get'"

/-- Whether a value is a Python dict. -/
def isObj : JValue → Bool
  | JValue.obj _ => true
  | _ => false

/-- `dict.get(k)` with the implicit default `None` (a missing key yields
Python `None`, i.e. `JValue.null`), for a value already known to be a
dict. -/
def getDefaultNull (fs : List (String × JValue)) (k : String) : JValue :=
  match fs.lookup k with
  | some v => v
  | none => JValue.null

/-- Python `x == "error"`: true exactly for the string `error` (source
line 261 compares `response.get("status") == "error"`). -/
def isStrError : JValue → Bool
  | JValue.str s => s == "error"
  | _ => false

/-- Python `x is False`: identity with the boolean singleton `False`
(source line 267, `response.get("success") is False`); note `0` is equal
to but not identical with `False`. -/
def isFalseLit : JValue → Bool
  | JValue.bool b => !b
  | _ => false

/-- `response.get("error") or response.get("message", "Unknown Unreal
error")` (source lines 262 and 269): the `error` value if present and
truthy, else the `message` value if the key is present (even when falsy,
per `dict.get` with an explicit default), else the fixed fallback text. -/
def errorMessageOf (fs : List (String × JValue)) : JValue :=
  let ge := getDefaultNull fs "error"
  if truthy ge then ge
  else
    match fs.lookup "message" with
    | some v => v
    | none => JValue.str "Unknown Unreal error"

/-- The error-shape normalization of `send_command` (source lines
260-275) applied to the parsed response. Calling `.get` on a non-dict
raises `AttributeError` (the `Except.error` case). For a dict: when
`status == "error"`, the response is kept and an `error` field is
appended only if absent (dict assignment appends a new key at the end);
when `success is False`, the response is replaced by the two-field
canonical dict; otherwise the response is returned untouched. -/
def normalize (v : JValue) : Except String JValue :=
  match v with
  | JValue.obj fs =>
    if isStrError (getDefaultNull fs "status") then
      if (fs.lookup "error").isSome then Except.ok (JValue.obj fs)
      else Except.ok (JValue.obj (fs ++ [("error", errorMessageOf fs)]))
    else if isFalseLit (getDefaultNull fs "success") then
      Except.ok (JValue.obj [("status", JValue.str "error"), ("error", errorMessageOf fs)])
    else Except.ok (JValue.obj fs)
  | other => Except.error (attrErrMsgGet other)

/-- The mutable fields of a `UnrealConnection` object (source lines
128-131): the socket handle (identified by a number when present) and the
`connected` flag. -/
structure ConnState : Type where
  socket : Option Nat
  connected : Bool
deriving DecidableEq

/-- The behaviour of the outside world during one `send_command` call:
whether the TCP connect succeeds, whether `json.dumps` of the envelope
raises (message of the exception if so), whether `sendall` raises, and
the sequence of `recv` outcomes. -/
structure CallWorld : Type where
  connectOk : Bool
  dumpsErr : Option String
  sendErr : Option String
  events : List RecvEvent

/-- `UnrealConnection.connect` (source lines 133-168). Any previously held
handle is closed and dropped (lines 137-142), a fresh socket object is
created and stored (line 149), its options and timeout are set, and the
TCP connect is attempted (line 160) — the step at which failure is
modelled, since socket creation and option setting do not fail in
practice. On success the flag is set and `true` returned; on failure the
`except` arm (lines 165-168) clears only the flag and returns `false`,
leaving the freshly created, unconnected handle stored in the socket
field. -/
def connect (w : CallWorld) (_st : ConnState) (freshId : Nat) : ConnState × Bool :=
  if w.connectOk then (ConnState.mk (some freshId) true, true)
  else (ConnState.mk (some freshId) false, false)

/-- The opening block of `send_command` (source lines 229-235): if a
socket handle is held, close it best-effort and clear both fields;
otherwise leave the state untouched. -/
def discardExisting (st : ConnState) : ConnState :=
  if st.socket.isSome then ConnState.mk none false else st

/-- The request envelope built at source lines 243-246:
`type` is the command name and `params` is `params or \x7b\x7d`
(Python truthiness: `None` and an empty dict both become the empty
dict). -/
def commandEnvelope (command : String) (params : Option JValue) : JValue :=
  JValue.obj
    [("type", JValue.str command),
     ("params",
       match params with
       | some p => if truthy p then p else JValue.obj []
       | none => JValue.obj [])]

/-- The body of the `try` block of `send_command` (source lines 241-286),
returning the state as left by the body together with either the returned
response value or the raised exception message.

Source correspondence: `json.dumps` may raise (e.g. `TypeError` on
unserializable params); `sendall` (line 251) may raise; then
`receive_full_response` runs — its exception propagates, a Python-`None`
return makes the subsequent `response_data.decode` (line 255) raise
`AttributeError`, and a returned buffer is decoded and parsed again
(line 255), whose failures raise. The parsed value is normalized
(lines 260-275; an `AttributeError` from `.get` on a non-dict raises),
and on the success path the socket is closed and both fields cleared
(lines 279-284) before the response is returned. -/
def sendBody (env : Env) (w : CallWorld) (_envelope : JValue) (st : ConnState) :
    ConnState × Except String JValue :=
  match w.dumpsErr with
  | some e => (st, Except.error e)
  | none =>
    match w.sendErr with
    | some e => (st, Except.error e)
    | none =>
      match recvLoop env [] w.events with
      | RecvOutcome.exc e => (st, Except.error e)
      | RecvOutcome.ret none =>
        (st, Except.error "'NoneType' object has no attribute 'decode'")
      | RecvOutcome.ret (some buf) =>
        match env.decodeUtf8 buf with
        | none => (st, Except.error (env.decodeErrMsg buf))
        | some s =>
          match env.jsonLoads s with
          | LoadsResult.jsonDecodeError m => (st, Except.error m)
          | LoadsResult.otherError m => (st, Except.error m)
          | LoadsResult.ok v =>
            match normalize v with
            | Except.error e => (st, Except.error e)
            | Except.ok v2 => (ConnState.mk none false, Except.ok v2)

/-- The canonical failure dict built by the `except` arm of
`send_command` (source lines 297-300). -/
def errObj (msg : String) : JValue :=
  JValue.obj [("status", JValue.str "error"), ("error", JValue.str msg)]

/-- The observable outcome of one `send_command` call: the final state of
the connection object, the Python return value (`none` is Python `None`,
returned at source line 239), and the identity of the socket on which
`sendall` and `recv` were performed (`none` when the call never reached
I/O because `connect` failed). -/
structure CallResult : Type where
  state : ConnState
  ret : Option JValue
  ioSocket : Option Nat

/-- `UnrealConnection.send_command` (source lines 225-300): discard any
held socket, connect afresh; on connect failure return Python `None`
(line 239) with the state as `connect` left it; otherwise run the body,
and on a raised exception apply the `except` arm (lines 288-300), which
clears the flag, closes and clears the socket, and returns the canonical
failure dict carrying `str(e)`. -/
def send_command (env : Env) (w : CallWorld) (command : String) (params : Option JValue)
    (st : ConnState) (freshId : Nat) : CallResult :=
  let st1 := discardExisting st
  let c := connect w st1 freshId
  if c.2 then
    match sendBody env w (commandEnvelope command params) c.1 with
    | (st3, Except.ok v) => CallResult.mk st3 (some v) (some freshId)
    | (_, Except.error e) => CallResult.mk (ConnState.mk none false) (some (errObj e)) (some freshId)
  else CallResult.mk c.1 none none

/-- Spec-side definition, following the words of the spec: a value has
the canonical failure-marker shape when it is a dict whose `status` field
is the string `error` and which carries an `error` field. Used only to
compare the spec's claimed return shape with what the code returns. -/
def spec_isCanonicalError : Option JValue → Bool
  | some (JValue.obj fs) =>
    isStrError (getDefaultNull fs "status") && (fs.lookup "error").isSome
  | _ => false

/-- Spec-side definition, following the words of the spec: a value is
exactly the two-field canonical failure marker with message `m` — a dict
with precisely the fields `status = "error"` and `error = m` and nothing
else. Used only to compare the spec's claimed return shape with what the
code returns. -/
def spec_exactCanonical (r : Option JValue) (m : String) : Bool :=
  match r with
  | some (JValue.obj [(k1, JValue.str a), (k2, JValue.str b)]) =>
    k1 == "status" && a == "error" && k2 == "error" && b == m
  | _ => false

/-- A table-driven runtime environment for concrete runs: `decodeUtf8`
and `jsonLoads` look their argument up in finite tables, defaulting to a
`UnicodeDecodeError` and to the usual `json.JSONDecodeError` text. -/
def mkTableEnv (dec : List (List Nat × String)) (loads : List (String × LoadsResult)) : Env :=
  Env.mk (fun bs => dec.lookup bs)
    (fun _ => "'utf-8' codec can't decode bytes")
    (fun s =>
      match loads.lookup s with
      | some r => r
      | none => LoadsResult.jsonDecodeError "Expecting value: line 1 column 1 (char 0)")

/-- The world behaves so that the call reaches the parse step and the
peer's full response parses to `v`: connect succeeds, serialization and
send do not raise, the receive loop returns a buffer, and that buffer
decodes and parses to `v`. -/
def deliversParsed (env : Env) (w : CallWorld) (v : JValue) : Prop :=
  w.connectOk = true ∧ w.dumpsErr = none ∧ w.sendErr = none ∧
    ∃ buf s, recvLoop env [] w.events = RecvOutcome.ret (some buf) ∧
      env.decodeUtf8 buf = some s ∧ env.jsonLoads s = LoadsResult.ok v

/-- The initial state of a fresh `UnrealConnection` (source lines
128-131). -/
def st0 : ConnState := ConnState.mk none false

/-- The value `send_command` hands back for a parsed response: the
normalized value, or the canonical failure dict when normalization raised
(the non-dict `AttributeError` path caught by the `except` arm). -/
def normalizeToValue (v : JValue) : JValue :=
  match normalize v with
  | Except.ok v2 => v2
  | Except.error e => errObj e

/-- Runtime table for a peer that sends the single byte 88 (the letter X,
not valid JSON) and nothing else that parses. -/
def envC1 : Env := mkTableEnv [([88], "X")] []

/-- World for the C1 run: connect succeeds and the peer sends one
unparseable chunk, then closes its write side. -/
def wC1 : CallWorld := CallWorld.mk true none none [RecvEvent.data [88], RecvEvent.data []]

/-- World in which the TCP connect fails (nothing listening on the
port). -/
def wCF : CallWorld := CallWorld.mk false none none []

/-- Runtime environment with empty tables, for runs that never reach a
successful decode. -/
def envTriv : Env := mkTableEnv [] []

/-- World in which connect succeeds and the peer immediately closes. -/
def wOK : CallWorld := CallWorld.mk true none none [RecvEvent.data []]

/-- The legacy error text with only a message field, as JSON source. -/
def sLegacy : String := "\x7b\"status\": \"error\", \"message\": \"boom\"\x7d"

/-- Runtime table for a peer that sends `sLegacy` as a single chunk
(modelled as byte 2 on the wire). -/
def envC4 : Env := mkTableEnv [([2], sLegacy)]
  [(sLegacy, LoadsResult.ok
    (JValue.obj [("status", JValue.str "error"), ("message", JValue.str "boom")]))]

/-- World for the C4 run. -/
def wC4 : CallWorld := CallWorld.mk true none none [RecvEvent.data [2]]

/-- First legacy error shape as JSON source: status error with an error
field. -/
def sErr1 : String := "\x7b\"status\": \"error\", \"error\": \"X\"\x7d"

/-- Second legacy error shape as JSON source: success false with a
message field. -/
def sErr2 : String := "\x7b\"success\": false, \"message\": \"X\"\x7d"

/-- Runtime table serving both legacy error shapes (bytes 3 and 4 on the
wire). -/
def envC6 : Env := mkTableEnv [([3], sErr1), ([4], sErr2)]
  [(sErr1, LoadsResult.ok
     (JValue.obj [("status", JValue.str "error"), ("error", JValue.str "X")])),
   (sErr2, LoadsResult.ok
     (JValue.obj [("success", JValue.bool false), ("message", JValue.str "X")]))]

/-- World delivering the first legacy error shape. -/
def wC6a : CallWorld := CallWorld.mk true none none [RecvEvent.data [3]]

/-- World delivering the second legacy error shape. -/
def wC6b : CallWorld := CallWorld.mk true none none [RecvEvent.data [4]]

/-- Runtime table for a peer replying with the JSON array `[]` (byte 5 on
the wire). -/
def envC10 : Env := mkTableEnv [([5], "[]")] [("[]", LoadsResult.ok (JValue.arr []))]

/-- World for the C10 run. -/
def wC10 : CallWorld := CallWorld.mk true none none [RecvEvent.data [5]]

/-- Runtime table for the utf-8-split run: the full four bytes 34 195 169
34 are the JSON document consisting of one accented-letter string, but
the prefix 34 195 ends in the middle of the two-byte character and fails
to decode. -/
def envC5 : Env :=
  mkTableEnv [([34, 195, 169, 34], "\"é\"")] [("\"é\"", LoadsResult.ok (JValue.str "é"))]

/-- Runtime table in which `json.loads` fails with a non-JSONDecodeError
exception (a recursion-depth error) on the decoded text. -/
def envC5b : Env :=
  mkTableEnv [([65], "A")] [("A", LoadsResult.otherError "maximum recursion depth exceeded")]

/-! ## Helper lemmas -/

/-- The only success exit of the dispatcher body leaves the socket closed
and the flag cleared (source lines 279-284). -/
theorem sendBody_ok_state (env : Env) (w : CallWorld) (e : JValue) (st stB : ConnState)
    (v : JValue) (h : sendBody env w e st = (stB, Except.ok v)) :
    stB = ConnState.mk none false := by
  unfold sendBody at h
  repeat' split at h
  all_goals simp_all

/-- When the world lets the call reach the parse step with parsed value
`v`, the dispatcher returns the normalization of `v` (or the canonical
failure dict if normalization raised). -/
theorem send_command_parsed (env : Env) (w : CallWorld) (cmd : String) (p : Option JValue)
    (st : ConnState) (n : Nat) (v : JValue) (h : deliversParsed env w v) :
    (send_command env w cmd p st n).ret = some (normalizeToValue v) := by
  obtain ⟨h1, h2, h3, buf, s, h4, h5, h6⟩ := h
  simp only [send_command, connect, sendBody, discardExisting, h1, h2, h3, h4, h5, h6,
    if_true, normalizeToValue]
  cases hn : normalize v <;> simp [hn]

/-- The socket a call performs its I/O on is its own fresh handle exactly
when connect succeeded, and no handle at all otherwise. -/
theorem ioSocket_spec (env : Env) (w : CallWorld) (cmd : String) (p : Option JValue)
    (st : ConnState) (n : Nat) :
    (send_command env w cmd p st n).ioSocket = if w.connectOk then some n else none := by
  unfold send_command connect
  cases hw : w.connectOk
  · simp [hw]
  · simp only [hw, if_true]
    rcases h : sendBody env w (commandEnvelope cmd p) (ConnState.mk (some n) true) with ⟨stB, r⟩
    cases r <;> simp [h]

/-- The opening block of `send_command` always leaves no socket handle
stored. -/
theorem discardExisting_socket (st : ConnState) : (discardExisting st).socket = none := by
  unfold discardExisting
  rcases st with ⟨s, c⟩
  cases s <;> simp

/-! ## The claims -/

/-- C1: the claim states that `receive_full_response` either returns a
buffer that decodes and parses as one complete JSON document or raises
one of the two designated failures, and in particular that when the peer
closes after some bytes were accumulated the collected bytes are parsed
and the call never returns a partial, malformed or empty result. The
code refutes this: when the peer closes after sending bytes that never
parsed, the `break` at source line 190 leaves the loop, the function body
ends with no further statement, and the call returns Python `None` —
an empty result, contradicting the declared `bytes` return annotation.
`send_command` then turns the `None` into the AttributeError-based
failure dict instead of parsing the collected bytes. -/
theorem c1_peer_close_after_data_returns_none :
    receive_full_response envC1 [RecvEvent.data [88], RecvEvent.data []] =
        RecvOutcome.ret none ∧
      (send_command envC1 wC1 "ping" none st0 0).ret =
        some (errObj "'NoneType' object has no attribute 'decode'") :=
  ⟨rfl, rfl⟩

/-- C2 counterexample: when connect fails, the value `send_command`
returns does not have the canonical failure shape the claim asserts — it
is Python `None` (source line 239). -/
theorem c2_counterexample_connect_fail_shape :
    spec_isCanonicalError (send_command envTriv wCF "ping" none st0 0).ret = false :=
  rfl

/-- C2 (amended): when connect fails, `send_command` returns Python
`None` immediately, performing no I/O on any socket and no retry; the
claimed canonical error dict is not produced on this path. -/
theorem c2_connect_fail_returns_none_without_io (env : Env) (w : CallWorld) (cmd : String)
    (p : Option JValue) (st : ConnState) (n : Nat) (h : w.connectOk = false) :
    (send_command env w cmd p st n).ret = none ∧
      (send_command env w cmd p st n).ioSocket = none := by
  unfold send_command connect
  simp [h]

/-- C2 witness: the amended theorem at the connect-refused world. -/
theorem c2_witness_connect_fail :
    (send_command envTriv wCF "delete_actor" none st0 0).ret = none ∧
      (send_command envTriv wCF "delete_actor" none st0 0).ioSocket = none :=
  c2_connect_fail_returns_none_without_io envTriv wCF "delete_actor" none st0 0 rfl

/-- C3 counterexample: after a call whose connect failed, the socket
field still holds the freshly created, unconnected handle (the `except`
arm of `connect`, source lines 165-168, clears only the flag), so the
claimed always-cleared invariant fails. -/
theorem c3_counterexample_socket_not_cleared :
    (send_command envTriv wCF "ping" none (ConnState.mk (some 5) true) 7).state.socket =
      some 7 :=
  rfl

/-- C3 (amended): after every `send_command` call the connected flag is
false, and the socket handle is cleared on every path except the
connect-failure path, where the fresh unconnected handle remains
stored. -/
theorem c3_connected_cleared_socket_except_connect_fail (env : Env) (w : CallWorld)
    (cmd : String) (p : Option JValue) (st : ConnState) (n : Nat) :
    (send_command env w cmd p st n).state.connected = false ∧
      ((send_command env w cmd p st n).state.socket = none ∨
        (w.connectOk = false ∧ (send_command env w cmd p st n).state.socket = some n)) := by
  unfold send_command connect
  cases hw : w.connectOk
  · simp [hw]
  · simp only [hw, if_true]
    rcases h : sendBody env w (commandEnvelope cmd p) (ConnState.mk (some n) true) with ⟨stB, r⟩
    cases r with
    | error e => simp [h]
    | ok v =>
      have := sendBody_ok_state env w (commandEnvelope cmd p) _ _ _ h
      subst this
      simp [h]

/-- C4 counterexample: for the legacy shape with status error and only a
message field, the returned dict retains the message field and merely
appends an error field (source lines 264-266), so it is not the exact
two-field canonical marker the claim asserts. -/
theorem c4_counterexample_message_field_retained :
    (send_command envC4 wC4 "spawn_actor" none st0 0).ret =
        some (JValue.obj [("status", JValue.str "error"), ("message", JValue.str "boom"),
          ("error", JValue.str "boom")]) ∧
      spec_exactCanonical (send_command envC4 wC4 "spawn_actor" none st0 0).ret "boom" =
        false :=
  ⟨rfl, rfl⟩

/-- C4 (amended): for every peer response parsing as the legacy shape
with status error and a message field but no error field, `send_command`
returns the original mapping with an error field appended whose value is
the message value; the message field is retained, not dropped. -/
theorem c4_legacy_message_appends_error_field (env : Env) (w : CallWorld) (cmd : String)
    (p : Option JValue) (st : ConnState) (n : Nat) (m : JValue)
    (h : deliversParsed env w
      (JValue.obj [("status", JValue.str "error"), ("message", m)])) :
    (send_command env w cmd p st n).ret =
      some (JValue.obj [("status", JValue.str "error"), ("message", m), ("error", m)]) := by
  rw [send_command_parsed env w cmd p st n _ h]
  rfl

/-- C4 witness: the amended theorem at the concrete legacy response. -/
theorem c4_witness_legacy_message :
    (send_command envC4 wC4 "spawn_blueprint_actor" none st0 0).ret =
      some (JValue.obj [("status", JValue.str "error"), ("message", JValue.str "boom"),
        ("error", JValue.str "boom")]) :=
  c4_legacy_message_appends_error_field envC4 wC4 "spawn_blueprint_actor" none st0 0
    (JValue.str "boom") ⟨rfl, rfl, rfl, [2], sLegacy, rfl, rfl, rfl⟩

/-- C5 counterexample: when the accumulated bytes fail to decode as UTF-8
— here a two-byte character split across the chunk boundary — the
receive aborts with the propagated decode exception instead of
continuing; continuing for one more chunk would in fact have completed
the document, as the second conjunct shows. The decode call at source
line 195 sits outside the inner `try`, so its failure reaches the outer
handler (line 221) and is re-raised. -/
theorem c5_counterexample_decode_failure_aborts :
    recvLoop envC5 [] [RecvEvent.data [34, 195], RecvEvent.data [169, 34]] =
        RecvOutcome.exc "'utf-8' codec can't decode bytes" ∧
      recvLoop envC5 [[34, 195]] [RecvEvent.data [169, 34]] =
        RecvOutcome.ret (some [34, 195, 169, 34]) :=
  ⟨rfl, rfl⟩

/-- C5 (amended): when the accumulated bytes decode as UTF-8 and
`json.loads` on the decoded text fails with an exception other than
JSONDecodeError, the loop logs and continues reading; a UTF-8 decode
failure, by contrast, aborts the receive. -/
theorem c5_loads_other_error_continues (env : Env) (chunks : List (List Nat))
    (b : List Nat) (rest : List RecvEvent) (s m : String) (hb : b ≠ [])
    (hd : env.decodeUtf8 (chunks ++ [b]).flatten = some s)
    (hl : env.jsonLoads s = LoadsResult.otherError m) :
    recvLoop env chunks (RecvEvent.data b :: rest) = recvLoop env (chunks ++ [b]) rest := by
  have hbe : b.isEmpty = false := by
    cases b with
    | nil => exact absurd rfl hb
    | cons x xs => rfl
  conv_lhs => rw [recvLoop]
  simp only [hbe, Bool.false_eq_true, if_false, hd, hl]

/-- C5 witness: the amended theorem at a run whose parse fails with a
recursion-depth error. -/
theorem c5_witness_loads_other_error :
    recvLoop envC5b [] [RecvEvent.data [65]] = recvLoop envC5b [[65]] [] :=
  c5_loads_other_error_continues envC5b [] [65] [] "A"
    "maximum recursion depth exceeded" (by decide) rfl rfl

/-- C6: the two legacy error shapes — status error with an error field,
and success false with a message field, both carrying the same message —
make `send_command` return the same canonical dict with status error and
that message under the error key. -/
theorem c6_error_shape_equivalence (env : Env) (w1 w2 : CallWorld) (cmd1 cmd2 : String)
    (p1 p2 : Option JValue) (st1 st2 : ConnState) (n1 n2 : Nat) (x : String)
    (h1 : deliversParsed env w1
      (JValue.obj [("status", JValue.str "error"), ("error", JValue.str x)]))
    (h2 : deliversParsed env w2
      (JValue.obj [("success", JValue.bool false), ("message", JValue.str x)])) :
    (send_command env w1 cmd1 p1 st1 n1).ret =
        some (JValue.obj [("status", JValue.str "error"), ("error", JValue.str x)]) ∧
      (send_command env w2 cmd2 p2 st2 n2).ret =
        some (JValue.obj [("status", JValue.str "error"), ("error", JValue.str x)]) := by
  constructor
  · rw [send_command_parsed env w1 cmd1 p1 st1 n1 _ h1]
    rfl
  · rw [send_command_parsed env w2 cmd2 p2 st2 n2 _ h2]
    rfl

/-- C6 witness: the theorem at the two concrete legacy responses carrying
message X. -/
theorem c6_witness_error_shapes :
    (send_command envC6 wC6a "get_actors_in_level" none st0 0).ret =
        some (JValue.obj [("status", JValue.str "error"), ("error", JValue.str "X")]) ∧
      (send_command envC6 wC6b "get_actors_in_level" none st0 1).ret =
        some (JValue.obj [("status", JValue.str "error"), ("error", JValue.str "X")]) :=
  c6_error_shape_equivalence envC6 wC6a wC6b "get_actors_in_level" "get_actors_in_level"
    none none st0 st0 0 1 "X"
    ⟨rfl, rfl, rfl, [3], sErr1, rfl, rfl, rfl⟩
    ⟨rfl, rfl, rfl, [4], sErr2, rfl, rfl, rfl⟩

/-- C7: for every command, params, prior state and world behaviour,
`send_command` returns a value: either connect failed and the call
returned Python `None`, or the dispatcher body returned a value which the
call hands back, or the body raised and the `except` arm converted the
exception into the canonical failure dict. No exception propagates to
the caller. -/
theorem c7_no_exception_escapes_dispatcher (env : Env) (w : CallWorld) (cmd : String)
    (p : Option JValue) (st : ConnState) (n : Nat) :
    (w.connectOk = false ∧ (send_command env w cmd p st n).ret = none) ∨
      (∃ stB v, sendBody env w (commandEnvelope cmd p) (ConnState.mk (some n) true) =
          (stB, Except.ok v) ∧ (send_command env w cmd p st n).ret = some v) ∨
      (∃ stB e, sendBody env w (commandEnvelope cmd p) (ConnState.mk (some n) true) =
          (stB, Except.error e) ∧
          (send_command env w cmd p st n).ret = some (errObj e)) := by
  unfold send_command connect
  cases hw : w.connectOk
  · left; simp [hw]
  · right
    rcases h : sendBody env w (commandEnvelope cmd p) (ConnState.mk (some n) true) with ⟨stB, r⟩
    cases r with
    | ok v => left; exact ⟨stB, v, rfl, by simp [h]⟩
    | error e => right; exact ⟨stB, e, rfl, by simp [h]⟩

/-- C8: on a read timeout — the event list exhausted — the receive makes
one final parse attempt on the accumulated bytes: it returns them exactly
when something was accumulated and the buffer decodes and parses as
complete JSON, and otherwise (including when nothing was accumulated)
raises the timeout failure; a buffer that does not parse is never
returned from this path. -/
theorem c8_timeout_last_parse_or_failure (env : Env) (chunks : List (List Nat)) :
    (chunks ≠ [] ∧ parsesAsJson env chunks.flatten = true ∧
        recvLoop env chunks [] = RecvOutcome.ret (some chunks.flatten)) ∨
      recvLoop env chunks [] = RecvOutcome.exc "Timeout receiving Unreal response" := by
  unfold recvLoop parsesAsJson
  rcases he : chunks.isEmpty with _ | _
  · rcases hd : env.decodeUtf8 chunks.flatten with _ | s
    · right; simp [he, hd]
    · rcases hl : env.jsonLoads s with v | m | m
      · left
        refine ⟨by simpa [List.isEmpty_iff] using he, ?_, by simp [he, hd, hl]⟩
        simp [hd, hl]
      · right; simp [he, hd, hl]
      · right; simp [he, hd, hl]
  · right; simp [he]

/-- C9: across two consecutive calls on the same connection object, with
distinct fresh socket objects, the second call performs its I/O on its
own fresh socket or on none at all, never on the socket of the first
call, and its opening block leaves no prior handle stored. -/
theorem c9_connect_per_call_no_reuse (env : Env) (w1 w2 : CallWorld) (cmd1 cmd2 : String)
    (p1 p2 : Option JValue) (st : ConnState) (n1 n2 : Nat) (hne : n1 ≠ n2) :
    ((send_command env w2 cmd2 p2 (send_command env w1 cmd1 p1 st n1).state n2).ioSocket =
          none ∨
        (send_command env w2 cmd2 p2 (send_command env w1 cmd1 p1 st n1).state n2).ioSocket =
          some n2) ∧
      (send_command env w2 cmd2 p2 (send_command env w1 cmd1 p1 st n1).state n2).ioSocket ≠
        some n1 ∧
      (discardExisting (send_command env w1 cmd1 p1 st n1).state).socket = none := by
  rw [ioSocket_spec]
  refine ⟨?_, ?_, discardExisting_socket _⟩
  · cases hw : w2.connectOk <;> simp
  · cases hw : w2.connectOk <;> simp
    exact fun hc => hne hc.symm

/-- C9 witness: the theorem at two concrete consecutive calls with
distinct fresh sockets. -/
theorem c9_witness_connect_per_call :
    ((send_command envTriv wOK "a" none (send_command envTriv wOK "a" none st0 0).state
          1).ioSocket = none ∨
        (send_command envTriv wOK "a" none (send_command envTriv wOK "a" none st0 0).state
          1).ioSocket = some 1) ∧
      (send_command envTriv wOK "a" none (send_command envTriv wOK "a" none st0 0).state
          1).ioSocket ≠ some 0 ∧
      (discardExisting (send_command envTriv wOK "a" none st0 0).state).socket = none :=
  c9_connect_per_call_no_reuse envTriv wOK wOK "a" "a" none none st0 0 1 (by decide)

/-- C10: when the full response parses as a JSON value that is not a
mapping, the attribute access in the normalization step fails and
`send_command` returns the canonical failure dict carrying the
AttributeError text, not the parsed value. -/
theorem c10_non_mapping_response_attribute_error (env : Env) (w : CallWorld) (cmd : String)
    (p : Option JValue) (st : ConnState) (n : Nat) (v : JValue)
    (h : deliversParsed env w v) (hv : isObj v = false) :
    (send_command env w cmd p st n).ret = some (errObj (attrErrMsgGet v)) := by
  rw [send_command_parsed env w cmd p st n _ h]
  cases v <;> simp_all [normalizeToValue, normalize, isObj]

/-- C10 witness: the theorem at a peer replying with the empty JSON
array. -/
theorem c10_witness_list_response :
    (send_command envC10 wC10 "get_actors_in_level" none st0 0).ret =
      some (errObj "'list' object has no attribute 'get'") :=
  c10_non_mapping_response_attribute_error envC10 wC10 "get_actors_in_level" none st0 0
    (JValue.arr []) ⟨rfl, rfl, rfl, [5], "[]", rfl, rfl, rfl⟩ rfl

end UnrealMCP
